import Mathlib

/-!
Shallow embedding of `src/script.js` of the menstrual-health-chatbot
repository: the setup click handler, `calculateCyclePhase`, `sendMessage`
and `addMessage`, together with the ambient browser state they touch
(module-level variables, the chat container, the loading indicator,
`localStorage`, the setup screen and the alert dialog).

Network effects are modelled by passing in the outcome of each `fetch`
call explicitly: an `Except String _` whose `.error e` constructor stands
for a rejected promise / thrown exception carrying message `e`, and whose
`.ok` constructor carries the HTTP response.  A response bundles its `ok`
flag with the outcome of `response.json()` (which can itself throw on a
malformed body).
-/

/-- A chat-log entry, as produced by `addMessage(text, sender)`:
`sender` is the string `"user"` or `"assistant"`. -/
structure ChatMessage where
  text : String
  sender : String
deriving DecidableEq, Repr

/-- Embedding of `addMessage`: appending a message element to the chat
container.  The DOM child list of `chatContainer` is modelled as a list
of `ChatMessage`, appended at the end exactly as `appendChild` does. -/
def addMessage (log : List ChatMessage) (text sender : String) : List ChatMessage :=
  log ++ [⟨text, sender⟩]

/-- JS truthiness of an optional string variable (`null`/`undefined` and
`""` are falsy, every other string truthy), as used by the guards
`if (!lastPeriod)` and `if (!userLastPeriodDate)`. -/
def jsStrFalsy : Option String → Bool
  | none => true
  | some s => s = ""

/-- The JS `||` defaulting idiom on an optional string value
(`data.error || d`, `content || d`): a missing or empty string falls
back to the default `d`. -/
def jsOr (v : Option String) (d : String) : String :=
  match v with
  | some s => if s = "" then d else s
  | none => d

/-- Decimal digit value of a character, `none` otherwise. -/
def digitVal (c : Char) : Option Nat :=
  if '0' ≤ c && c ≤ '9' then some (c.toNat - '0'.toNat) else none

def parseDigitsAux (acc : Nat) : List Char → Option Nat
  | [] => some acc
  | c :: cs =>
    match digitVal c with
    | some d => parseDigitsAux (10 * acc + d) cs
    | none => none

/-- Model of the JS `Number()` conversion restricted to optionally-signed
decimal integer literals: `Number("") = 0`, a digit string parses to its
value, a `-`-prefixed digit string to its negation, and any other string
(which `Number` would map to `NaN`) is modelled as `none`. -/
def jsNumber (s : String) : Option Int :=
  match s.data with
  | [] => some 0
  | '-' :: rest =>
    match rest with
    | [] => none
    | _ => (parseDigitsAux 0 rest).map (fun n => -(n : Int))
  | cs => (parseDigitsAux 0 cs).map Int.ofNat

/-- ASCII whitespace as stripped by the JS `String.prototype.trim`
(restricted to the space, tab, newline and carriage-return characters
that can occur in a text input). -/
def isWsChar (c : Char) : Bool :=
  c = ' ' || c = '\t' || c = '\n' || c = '\r'

def dropLeadingWs : List Char → List Char
  | [] => []
  | c :: cs => if isWsChar c then dropLeadingWs cs else c :: cs

/-- The JS `.trim()` applied to the input field value, modelled over the
underlying character list. -/
def jsTrim (s : String) : String :=
  ⟨((dropLeadingWs s.data).reverse |> dropLeadingWs).reverse⟩

/-- The implicit string conversion applied when a JS number is stored via
`localStorage.setItem` (`NaN` prints as `"NaN"`). -/
def jsNumToString : Option Int → String
  | none => "NaN"
  | some n => toString n

/-- `localStorage.setItem`: replace any previous binding of the key. -/
def setItem (store : List (String × String)) (k v : String) : List (String × String) :=
  (store.filter (fun p => p.1 ≠ k)) ++ [(k, v)]

/-- `localStorage.getItem` on the association-list model. -/
def getItem (store : List (String × String)) (k : String) : Option String :=
  (store.find? (fun p => p.1 = k)).map (fun p => p.2)

/-- The ambient browser/application state touched by `script.js`:
the two module-level variables, the chat container's children, the
`userInput` field value, the loading indicator's and the setup screen's
`style.display`, `localStorage`, and the list of `alert` dialogs shown.
`userCycleLength` is a JS number, `none` standing for `NaN`;
its initial value is `some 28`. -/
structure AppState where
  userLastPeriodDate : Option String
  userCycleLength : Option Int
  chatLog : List ChatMessage
  inputValue : String
  loadingDisplay : String
  setupDisplay : String
  storage : List (String × String)
  alerts : List String
deriving Repr

/-- Embedding of the `completeSetupBtn` click listener.  `lastPeriodField`
and `cycleLengthField` are the current `.value` of the two form inputs. -/
def completeSetupClick (st : AppState) (lastPeriodField cycleLengthField : String) :
    AppState :=
  -- const cycleLength = setupCycleLengthInput.value || 28  (28 is already a number)
  let cycleLength : Option Int :=
    if cycleLengthField = "" then some 28 else jsNumber cycleLengthField
  if lastPeriodField = "" then
    -- alert(...); return;  — no state is written
    { st with alerts := st.alerts ++ ["Please enter the start date of your last period."] }
  else
    { st with
      userLastPeriodDate := some lastPeriodField
      userCycleLength := cycleLength
      storage := setItem (setItem st.storage "lastPeriodDate" lastPeriodField)
        "cycleLength" (jsNumToString cycleLength)
      setupDisplay := "none" }

/-- An HTTP response as seen through `fetch`: its `ok` flag and the
outcome of `response.json()` (`.error e` models a thrown parse error). -/
structure HttpResponse (β : Type) where
  ok : Bool
  json : Except String β
deriving Repr

/-- Parsed JSON body of the cycle-calculation service response:
`{success, error?, cycle_day, phase}`. -/
structure CycleData where
  success : Bool
  error : Option String
  cycle_day : Int
  phase : String
deriving Repr

/-- `choices[i].message.content` of the completion response; every level
of the optional chain may be absent. -/
structure CompletionMessage where
  content : Option String
deriving Repr

structure CompletionChoice where
  message : Option CompletionMessage
deriving Repr

/-- Parsed JSON body of the chat-completion service response. -/
structure ChatData where
  choices : Option (List CompletionChoice)
deriving Repr

/-- `data.choices?.[0]?.message?.content`: the optional chain, `none` as
soon as any link (`choices`, element `0`, `message`, `content`) is
missing. -/
def extractContent (data : ChatData) : Option String :=
  (((data.choices.bind List.head?).bind
    (fun ch => ch.message)).bind (fun m => m.content))

/-- Embedding of `calculateCyclePhase`, as a function of the outcome of
its `fetch` call.  `.error e` in the result models a thrown `Error` with
message `e`, which the caller's `catch` block receives. -/
def calculateCyclePhase (fetchResult : Except String (HttpResponse CycleData)) :
    Except String CycleData :=
  match fetchResult with
  | .error e => .error e
  | .ok response =>
    if !response.ok then .error "Failed to calculate cycle phase"
    else
      match response.json with
      | .error e => .error e
      | .ok data =>
        if !data.success then .error (jsOr data.error "Unknown error occurred")
        else .ok data

/-- The outcomes of the two network calls `sendMessage` may issue, in
order: the cycle-calculation fetch and the chat-completion fetch. -/
structure World where
  cycleFetch : Except String (HttpResponse CycleData)
  chatFetch : Except String (HttpResponse ChatData)
deriving Repr

/-- `cycleInfoText` as built on line 94 of the source. -/
def cycleInfoText (cycle_day : Int) (phase : String) : String :=
  "The user is currently on cycle day " ++ toString cycle_day ++
    ", in the " ++ phase ++ "."

/-- The persona prompt template literal sent as the single message
`content` (source lines 116–119), including its literal newlines and
indentation. -/
def promptContent (info message : String) : String :=
  "You are Luna, a compassionate AI health companion specializing in menstrual health and hormonal science. A user is sharing their symptoms or experiences. \n                    Provide validation and scientifically-backed insights about how their symptoms relate to hormonal cycles. Be warm, supportive, and informative. Keep responses concise but meaningful. Avoid medical diagnosis. \n                    " ++
    info ++ "\n                    User message: " ++ message

/-- The hard-coded fallback reply used when the extracted completion
content is missing or falsy. -/
def fallbackReply : String := "I'm sorry — I couldn't generate a response."

/-- `markdownText.replace(/~~/g, '')`: remove every literal `~~`
occurrence, scanning left to right without overlap. -/
def stripTildesAux : List Char → List Char
  | '~' :: '~' :: rest => stripTildesAux rest
  | c :: rest => c :: stripTildesAux rest
  | [] => []

def stripTildes (s : String) : String :=
  ⟨stripTildesAux s.data⟩

/-- Extraction of the reply text from the chat-completion call: the code
never inspects `response.ok` here, it goes straight to `response.json()`;
a thrown fetch or parse error propagates to the `catch` block. -/
def chatCompletionText (chatFetch : Except String (HttpResponse ChatData)) :
    Except String String :=
  match chatFetch with
  | .error e => .error e
  | .ok response =>
    match response.json with
    | .error e => .error e
    | .ok data => .ok (jsOr (extractContent data) fallbackReply)

/-- What a `sendMessage` invocation produced besides the new state:
the prompt content sent to the chat-completion service (if that call was
made at all) and whether each network call was issued. -/
structure SendResult where
  state : AppState
  promptSent : Option String
  cycleCalled : Bool
  chatCalled : Bool
deriving Repr

/-- The assistant message injected when setup is missing. -/
def setupRequestText : String :=
  "Please complete the setup so I can understand your cycle 💕"

/-- Embedding of `sendMessage`, as a function of the current state and of
the outcomes of the (up to two) network calls.  The `finally` block's
`loading.style.display = "none"` is reflected in every terminating branch
past the empty-input early return. -/
def sendMessage (st : AppState) (w : World) : SendResult :=
  let message := jsTrim st.inputValue
  if message = "" then
    -- if (!message) return;  — nothing happens, loading untouched
    { state := st, promptSent := none, cycleCalled := false, chatCalled := false }
  else
    let st1 : AppState :=
      { st with
        chatLog := addMessage st.chatLog message "user"
        inputValue := ""
        loadingDisplay := "block" }
    if jsStrFalsy st1.userLastPeriodDate then
      -- needs-setup guard: assistant message, loading hidden, return
      -- (the finally block hides loading again)
      { state :=
          { st1 with
            chatLog := addMessage st1.chatLog setupRequestText "assistant"
            loadingDisplay := "none" }
        promptSent := none, cycleCalled := false, chatCalled := false }
    else
      match calculateCyclePhase w.cycleFetch with
      | .error e =>
        -- catch: addMessage("Error: " + error.message, 'assistant'); finally
        { state :=
            { st1 with
              chatLog := addMessage st1.chatLog ("Error: " ++ e) "assistant"
              loadingDisplay := "none" }
          promptSent := none, cycleCalled := true, chatCalled := false }
      | .ok cycleInfo =>
        let info := cycleInfoText cycleInfo.cycle_day cycleInfo.phase
        let prompt := promptContent info message
        match chatCompletionText w.chatFetch with
        | .error e =>
          { state :=
              { st1 with
                chatLog := addMessage st1.chatLog ("Error: " ++ e) "assistant"
                loadingDisplay := "none" }
            promptSent := some prompt, cycleCalled := true, chatCalled := true }
        | .ok markdownText =>
          { state :=
              { st1 with
                chatLog := addMessage st1.chatLog (stripTildes markdownText) "assistant"
                loadingDisplay := "none" }
            promptSent := some prompt, cycleCalled := true, chatCalled := true }

/-- A sequence of `sendMessage` invocations: before each one the user has
typed `input` into the input field, and the network behaves as `w`. -/
def runSends (st : AppState) : List (String × World) → AppState
  | [] => st
  | (input, w) :: rest =>
    runSends (sendMessage { st with inputValue := input } w).state rest

/-- Substring containment over the underlying character lists (naive
left-to-right search). -/
def listHasPre : List Char → List Char → Bool
  | _, [] => true
  | [], _ :: _ => false
  | c :: cs, p :: ps => c = p && listHasPre cs ps

def listContains : List Char → List Char → Bool
  | [], p => p.isEmpty
  | c :: cs, p => listHasPre (c :: cs) p || listContains cs p

def strContains (s pat : String) : Bool :=
  listContains s.data pat.data

/-- `u :: a :: …` alternation check: the log fragment is a sequence of
(user, assistant) pairs in that order. -/
def userAssistantPairs : List ChatMessage → Bool
  | [] => true
  | [_] => false
  | u :: a :: rest =>
    (u.sender == "user") && (a.sender == "assistant") && userAssistantPairs rest

/-- The module-level initial state (lines 15–16 of the source): no last
period date, cycle length 28, everything else empty / visible setup. -/
def initState : AppState :=
  { userLastPeriodDate := none
    userCycleLength := some 28
    chatLog := []
    inputValue := ""
    loadingDisplay := "none"
    setupDisplay := "block"
    storage := []
    alerts := [] }

/-- Every completed `sendMessage` with non-empty trimmed input appends
exactly the user's message followed by one assistant message, whatever
the network does. -/
theorem sendMessage_chatLog_shape (st : AppState) (w : World)
    (hmsg : jsTrim st.inputValue ≠ "") :
    ∃ a : ChatMessage, a.sender = "assistant" ∧
      (sendMessage st w).state.chatLog =
        st.chatLog ++ [⟨jsTrim st.inputValue, "user"⟩, a] := by
  unfold sendMessage
  simp only [if_neg hmsg]
  split
  · exact ⟨⟨setupRequestText, "assistant"⟩, rfl, by simp [addMessage]⟩
  · split
    · rename_i e _
      exact ⟨⟨"Error: " ++ e, "assistant"⟩, rfl, by simp [addMessage]⟩
    · split
      · rename_i e _
        exact ⟨⟨"Error: " ++ e, "assistant"⟩, rfl, by simp [addMessage]⟩
      · rename_i t _
        exact ⟨⟨stripTildes t, "assistant"⟩, rfl, by simp [addMessage]⟩

/-- C1: if no CycleSetup exists (`userLastPeriodDate` unset), a send of a
non-empty trimmed input calls neither the cycle-calculation service nor
the chat-completion service, and appends exactly one assistant message
(the setup request) after the user's own message. -/
theorem c1_no_setup_no_network (st : AppState) (w : World)
    (hset : st.userLastPeriodDate = none)
    (hmsg : jsTrim st.inputValue ≠ "") :
    (sendMessage st w).cycleCalled = false ∧
    (sendMessage st w).chatCalled = false ∧
    (sendMessage st w).state.chatLog =
      st.chatLog ++
        [⟨jsTrim st.inputValue, "user"⟩, ⟨setupRequestText, "assistant"⟩] := by
  unfold sendMessage
  simp [if_neg hmsg, hset, jsStrFalsy, addMessage]

/-- Witness for C1 at a concrete state and network. -/
theorem c1_witness :
    ({ initState with inputValue := "hi" } : AppState).userLastPeriodDate = none ∧
    jsTrim ({ initState with inputValue := "hi" } : AppState).inputValue ≠ "" ∧
    ((sendMessage { initState with inputValue := "hi" }
        ⟨.error "net down", .error "net down"⟩).cycleCalled = false ∧
     (sendMessage { initState with inputValue := "hi" }
        ⟨.error "net down", .error "net down"⟩).chatCalled = false ∧
     (sendMessage { initState with inputValue := "hi" }
        ⟨.error "net down", .error "net down"⟩).state.chatLog =
       ({ initState with inputValue := "hi" } : AppState).chatLog ++
         [⟨jsTrim ({ initState with inputValue := "hi" } : AppState).inputValue, "user"⟩,
          ⟨setupRequestText, "assistant"⟩]) :=
  ⟨rfl, by decide, c1_no_setup_no_network _ _ rfl (by decide)⟩

/-- C6: every invocation of `sendMessage` with non-empty trimmed input
terminates with the loading indicator's display equal to `"none"`,
whatever the two network calls do (success, thrown exception, or the
needs-setup early return — the `finally` block hides it on every path). -/
theorem c6_loading_hidden (st : AppState) (w : World)
    (hmsg : jsTrim st.inputValue ≠ "") :
    (sendMessage st w).state.loadingDisplay = "none" := by
  unfold sendMessage
  simp only [if_neg hmsg]
  split
  · rfl
  · split <;> [rfl; skip]
    split <;> rfl

/-- Witness for C6 at a concrete state and network. -/
theorem c6_witness :
    jsTrim ({ initState with inputValue := " hello " } : AppState).inputValue ≠ "" ∧
    (sendMessage { initState with inputValue := " hello " }
      ⟨.error "boom", .error "boom"⟩).state.loadingDisplay = "none" :=
  ⟨by decide, c6_loading_hidden _ _ (by decide)⟩

/-- C7: an empty last-period date on setup confirmation shows an alert
and aborts with no state change: the module variables, durable storage
and the setup screen's visibility are untouched. -/
theorem c7_empty_date_aborts (st : AppState) (cycleLengthField : String) :
    (completeSetupClick st "" cycleLengthField).userLastPeriodDate = st.userLastPeriodDate ∧
    (completeSetupClick st "" cycleLengthField).userCycleLength = st.userCycleLength ∧
    (completeSetupClick st "" cycleLengthField).storage = st.storage ∧
    (completeSetupClick st "" cycleLengthField).setupDisplay = st.setupDisplay ∧
    (completeSetupClick st "" cycleLengthField).alerts =
      st.alerts ++ ["Please enter the start date of your last period."] := by
  simp [completeSetupClick]

/-- C3: when setup is present, the cycle call succeeds and the completion
service's fetch succeeds with a JSON body that omits `choices`, the
appended assistant message is exactly the fallback string. -/
theorem c3_missing_choices_fallback (st : AppState) (w : World) (cd : CycleData)
    (r : HttpResponse ChatData) (d : ChatData)
    (hset : jsStrFalsy st.userLastPeriodDate = false)
    (hmsg : jsTrim st.inputValue ≠ "")
    (hcyc : calculateCyclePhase w.cycleFetch = .ok cd)
    (hr : w.chatFetch = .ok r) (hj : r.json = .ok d) (hch : d.choices = none) :
    (sendMessage st w).state.chatLog =
      st.chatLog ++
        [⟨jsTrim st.inputValue, "user"⟩, ⟨fallbackReply, "assistant"⟩] := by
  have hstrip : stripTildes fallbackReply = fallbackReply := by decide
  unfold sendMessage
  simp [if_neg hmsg, hset, hcyc, chatCompletionText, hr, hj, extractContent, hch,
    jsOr, addMessage, hstrip]

/-- A concrete post-setup state with the given input typed, used by the
concrete witnesses below. -/
def stWithSetup (input : String) : AppState :=
  { initState with userLastPeriodDate := some "2025-01-01", inputValue := input }

/-- Witness for C3 at a concrete state, cycle result and chat response. -/
theorem c3_witness :
    jsStrFalsy (stWithSetup "hi").userLastPeriodDate = false ∧
    jsTrim (stWithSetup "hi").inputValue ≠ "" ∧
    calculateCyclePhase (.ok ⟨true, .ok ⟨true, none, 5, "menstrual"⟩⟩) =
      .ok ⟨true, none, 5, "menstrual"⟩ ∧
    (sendMessage (stWithSetup "hi")
        ⟨.ok ⟨true, .ok ⟨true, none, 5, "menstrual"⟩⟩, .ok ⟨true, .ok ⟨none⟩⟩⟩).state.chatLog =
      (stWithSetup "hi").chatLog ++
        [⟨jsTrim (stWithSetup "hi").inputValue, "user"⟩, ⟨fallbackReply, "assistant"⟩] :=
  ⟨by decide, by decide, rfl,
    c3_missing_choices_fallback _ _ ⟨true, none, 5, "menstrual"⟩ _ _
      (by decide) (by decide) rfl rfl rfl rfl⟩

/-- C10: when the completion response does contain
`choices[0].message.content` but that content is the empty string, the
appended assistant message is the fallback string (the `||` fallback
fires on any falsy content, not only on a missing `choices` field). -/
theorem c10_empty_content_fallback (st : AppState) (w : World) (cd : CycleData)
    (r : HttpResponse ChatData) (d : ChatData) (ch : CompletionChoice)
    (m : CompletionMessage) (rest : List CompletionChoice)
    (hset : jsStrFalsy st.userLastPeriodDate = false)
    (hmsg : jsTrim st.inputValue ≠ "")
    (hcyc : calculateCyclePhase w.cycleFetch = .ok cd)
    (hr : w.chatFetch = .ok r) (hj : r.json = .ok d)
    (hch : d.choices = some (ch :: rest))
    (hm : ch.message = some m) (hc : m.content = some "") :
    (sendMessage st w).state.chatLog =
      st.chatLog ++
        [⟨jsTrim st.inputValue, "user"⟩, ⟨fallbackReply, "assistant"⟩] := by
  have hstrip : stripTildes fallbackReply = fallbackReply := by decide
  unfold sendMessage
  simp [if_neg hmsg, hset, hcyc, chatCompletionText, hr, hj, extractContent, hch,
    hm, hc, jsOr, addMessage, hstrip]

/-- Witness for C10: a present but empty `content` yields the fallback. -/
theorem c10_witness :
    jsStrFalsy (stWithSetup "hey").userLastPeriodDate = false ∧
    jsTrim (stWithSetup "hey").inputValue ≠ "" ∧
    (sendMessage (stWithSetup "hey")
        ⟨.ok ⟨true, .ok ⟨true, none, 5, "menstrual"⟩⟩,
         .ok ⟨true, .ok ⟨some [⟨some ⟨some ""⟩⟩]⟩⟩⟩).state.chatLog =
      (stWithSetup "hey").chatLog ++
        [⟨jsTrim (stWithSetup "hey").inputValue, "user"⟩, ⟨fallbackReply, "assistant"⟩] :=
  ⟨by decide, by decide,
    c10_empty_content_fallback _ _ ⟨true, none, 5, "menstrual"⟩ _ _ ⟨some ⟨some ""⟩⟩
      ⟨some ""⟩ [] (by decide) (by decide) rfl rfl rfl rfl rfl rfl⟩

/-- A cycle-calculation response that fails its checks makes
`calculateCyclePhase` throw some message. -/
theorem calculateCyclePhase_fails (w : World) (resp : HttpResponse CycleData)
    (hw : w.cycleFetch = .ok resp)
    (hfail : resp.ok = false ∨ ∃ data, resp.json = .ok data ∧ data.success = false) :
    ∃ e, calculateCyclePhase w.cycleFetch = .error e := by
  cases hok : resp.ok
  · exact ⟨"Failed to calculate cycle phase", by simp [calculateCyclePhase, hw, hok]⟩
  · rcases hfail with hok' | ⟨data, hj, hs⟩
    · rw [hok] at hok'; exact absurd hok' (by decide)
    · exact ⟨jsOr data.error "Unknown error occurred",
        by simp [calculateCyclePhase, hw, hok, hj, hs]⟩

/-- A thrown cycle-calculation error is rendered as an `"Error: "` chat
message by the `catch` block. -/
theorem sendMessage_cycle_error_rendered (st : AppState) (w : World) (e : String)
    (hset : jsStrFalsy st.userLastPeriodDate = false)
    (hmsg : jsTrim st.inputValue ≠ "")
    (hcalc : calculateCyclePhase w.cycleFetch = .error e) :
    (sendMessage st w).state.chatLog =
      st.chatLog ++
        [⟨jsTrim st.inputValue, "user"⟩, ⟨"Error: " ++ e, "assistant"⟩] := by
  unfold sendMessage
  simp [if_neg hmsg, hset, hcalc, addMessage]

/-- C2 (amended): for a send with setup present, a non-OK HTTP status or
a false success flag from the cycle-calculation service yields an
appended assistant message beginning with `"Error: "`.  (The original
claim also covered the chat-completion service; see the counterexample:
that service's HTTP status and success flag are never checked.) -/
theorem c2_amended_cycle_failures_error (st : AppState) (w : World)
    (resp : HttpResponse CycleData)
    (hset : jsStrFalsy st.userLastPeriodDate = false)
    (hmsg : jsTrim st.inputValue ≠ "")
    (hw : w.cycleFetch = .ok resp)
    (hfail : resp.ok = false ∨ ∃ data, resp.json = .ok data ∧ data.success = false) :
    ∃ e, (sendMessage st w).state.chatLog =
      st.chatLog ++
        [⟨jsTrim st.inputValue, "user"⟩, ⟨"Error: " ++ e, "assistant"⟩] := by
  obtain ⟨e, hcalc⟩ := calculateCyclePhase_fails w resp hw hfail
  exact ⟨e, sendMessage_cycle_error_rendered st w e hset hmsg hcalc⟩

/-- Witness for the amended C2: a non-OK cycle response at a concrete
state. -/
theorem c2_witness :
    jsStrFalsy (stWithSetup "hi there").userLastPeriodDate = false ∧
    jsTrim (stWithSetup "hi there").inputValue ≠ "" ∧
    ((false = false) ∨ ∃ data : CycleData,
      (Except.ok data : Except String CycleData) = .ok data ∧ data.success = false) ∧
    ∃ e, (sendMessage (stWithSetup "hi there")
        ⟨.ok ⟨false, .error "no body"⟩, .error "unused"⟩).state.chatLog =
      (stWithSetup "hi there").chatLog ++
        [⟨jsTrim (stWithSetup "hi there").inputValue, "user"⟩,
         ⟨"Error: " ++ e, "assistant"⟩] :=
  ⟨by decide, by decide, Or.inl rfl,
    c2_amended_cycle_failures_error (stWithSetup "hi there")
      ⟨.ok ⟨false, .error "no body"⟩, .error "unused"⟩ ⟨false, .error "no body"⟩
      (by decide) (by decide) rfl (Or.inl rfl)⟩

/-- A concrete run refuting C2 as stated: the chat-completion service
answers with a non-OK HTTP status, yet the appended assistant message is
the fallback string, not an `"Error: …"` message (the code never checks
`response.ok` on that call). -/
def wC2 : World :=
  ⟨.ok ⟨true, .ok ⟨true, none, 5, "menstrual"⟩⟩, .ok ⟨false, .ok ⟨none⟩⟩⟩

/-- Counterexample to C2 as stated: with setup present and a non-OK
status from the chat-completion service, the appended assistant message
does not begin with `"Error: "`. -/
theorem c2_counterexample :
    (∃ r, wC2.chatFetch = .ok r ∧ r.ok = false) ∧
    (sendMessage (stWithSetup "hi") wC2).state.chatLog =
      (stWithSetup "hi").chatLog ++
        [⟨jsTrim (stWithSetup "hi").inputValue, "user"⟩,
         ⟨fallbackReply, "assistant"⟩] ∧
    ∀ rest : String, fallbackReply ≠ "Error: " ++ rest := by
  refine ⟨⟨⟨false, .ok ⟨none⟩⟩, rfl, rfl⟩, by decide, ?_⟩
  intro rest h
  have hd : fallbackReply.data = "Error: ".data ++ rest.data := by
    rw [h, String.data_append]
  have htake : fallbackReply.data.take ("Error: ".data).length = "Error: ".data := by
    rw [hd]; exact List.take_left _ _
  exact absurd htake (by decide)

/-- C8 (amended): with setup present, a non-OK cycle-calculation status
yields exactly `"Error: Failed to calculate cycle phase"`; an OK status
with `success = false` yields `"Error: "` followed by the response's
`error` field when that field is present and non-empty, and
`"Error: Unknown error occurred"` when the field is absent or empty
(the original claim's "when present" fails on the empty string, which JS
`||` treats as absent — see the counterexample). -/
theorem c8_amended_cycle_error_text (st : AppState) (w : World)
    (resp : HttpResponse CycleData) (e : String)
    (hset : jsStrFalsy st.userLastPeriodDate = false)
    (hmsg : jsTrim st.inputValue ≠ "")
    (hw : w.cycleFetch = .ok resp)
    (hfail :
      (resp.ok = false ∧ e = "Failed to calculate cycle phase") ∨
      (resp.ok = true ∧ ∃ data, resp.json = .ok data ∧ data.success = false ∧
        ((data.error = none ∧ e = "Unknown error occurred") ∨
         (data.error = some "" ∧ e = "Unknown error occurred") ∨
         (∃ s, data.error = some s ∧ s ≠ "" ∧ e = s)))) :
    (sendMessage st w).state.chatLog =
      st.chatLog ++
        [⟨jsTrim st.inputValue, "user"⟩, ⟨"Error: " ++ e, "assistant"⟩] := by
  have hcalc : calculateCyclePhase w.cycleFetch = .error e := by
    rcases hfail with ⟨hok, he⟩ | ⟨hok, data, hj, hs, herr⟩
    · simp [calculateCyclePhase, hw, hok, he]
    · rcases herr with ⟨hn, he⟩ | ⟨hn, he⟩ | ⟨s, hsome, hne, he⟩
      · simp [calculateCyclePhase, hw, hok, hj, hs, jsOr, hn, he]
      · simp [calculateCyclePhase, hw, hok, hj, hs, jsOr, hn, he]
      · simp [calculateCyclePhase, hw, hok, hj, hs, jsOr, hsome, hne, he]
  exact sendMessage_cycle_error_rendered st w e hset hmsg hcalc

/-- Witness for the amended C8 at a concrete non-OK cycle response. -/
theorem c8_witness :
    jsStrFalsy (stWithSetup "cramps").userLastPeriodDate = false ∧
    jsTrim (stWithSetup "cramps").inputValue ≠ "" ∧
    (sendMessage (stWithSetup "cramps")
        ⟨.ok ⟨false, .error "no body"⟩, .error "unused"⟩).state.chatLog =
      (stWithSetup "cramps").chatLog ++
        [⟨jsTrim (stWithSetup "cramps").inputValue, "user"⟩,
         ⟨"Error: " ++ "Failed to calculate cycle phase", "assistant"⟩] :=
  ⟨by decide, by decide,
    c8_amended_cycle_error_text (stWithSetup "cramps")
      ⟨.ok ⟨false, .error "no body"⟩, .error "unused"⟩ ⟨false, .error "no body"⟩
      "Failed to calculate cycle phase" (by decide) (by decide) rfl
      (Or.inl ⟨rfl, rfl⟩)⟩

/-- Counterexample to C8 as stated: a `success = false` response whose
`error` field is present but equal to `""` yields
`"Error: Unknown error occurred"`, not `"Error: " ++ ""` as the claim's
"error field when present" clause demands. -/
theorem c8_counterexample :
    (sendMessage (stWithSetup "hi")
        ⟨.ok ⟨true, .ok ⟨false, some "", 0, ""⟩⟩, .error "unused"⟩).state.chatLog =
      (stWithSetup "hi").chatLog ++
        [⟨jsTrim (stWithSetup "hi").inputValue, "user"⟩,
         ⟨"Error: Unknown error occurred", "assistant"⟩] ∧
    ("Error: Unknown error occurred" : String) ≠ "Error: " ++ "" := by
  exact ⟨by decide, by decide⟩

/-- On the success path, the prompt sent is the persona template around
the cycle summary and the trimmed user message, and the appended
assistant message is the returned content with `~~` stripped. -/
theorem sendMessage_success_shape (st : AppState) (w : World) (cd : CycleData)
    (t : String)
    (hset : jsStrFalsy st.userLastPeriodDate = false)
    (hmsg : jsTrim st.inputValue ≠ "")
    (hcyc : calculateCyclePhase w.cycleFetch = .ok cd)
    (hchat : chatCompletionText w.chatFetch = .ok t) :
    (sendMessage st w).promptSent =
      some (promptContent (cycleInfoText cd.cycle_day cd.phase) (jsTrim st.inputValue)) ∧
    (sendMessage st w).state.chatLog =
      st.chatLog ++
        [⟨jsTrim st.inputValue, "user"⟩, ⟨stripTildes t, "assistant"⟩] := by
  unfold sendMessage
  simp [if_neg hmsg, hset, hcyc, hchat, addMessage]

/-- The network behaviour of the C4 example: the calculation service
answers `{success:true, cycle_day:5, phase:"menstrual"}` and the
completion service returns content `c`. -/
def wC4 (c : String) : World :=
  ⟨.ok ⟨true, .ok ⟨true, none, 5, "menstrual"⟩⟩,
   .ok ⟨true, .ok ⟨some [⟨some ⟨some c⟩⟩]⟩⟩⟩

set_option maxRecDepth 10000 in
/-- C4: for the input `"I feel crampy today"` with setup
`{lastPeriodDate:"2025-01-01", cycleLength:28}` and the calculation
service returning `{success:true, cycle_day:5, phase:"menstrual"}`, the
prompt contains `"cycle day 5"`, `"menstrual"` and the user's message,
and the appended assistant message is the (non-empty) returned content
with every literal `~~` removed. -/
theorem c4_crampy_example (c : String) (hc : c ≠ "") :
    ∃ p, (sendMessage (stWithSetup "I feel crampy today") (wC4 c)).promptSent = some p ∧
      strContains p "cycle day 5" = true ∧
      strContains p "menstrual" = true ∧
      strContains p (stWithSetup "I feel crampy today").inputValue = true ∧
      (sendMessage (stWithSetup "I feel crampy today") (wC4 c)).state.chatLog =
        (stWithSetup "I feel crampy today").chatLog ++
          [⟨jsTrim (stWithSetup "I feel crampy today").inputValue, "user"⟩,
           ⟨stripTildes c, "assistant"⟩] := by
  have hchat : chatCompletionText (wC4 c).chatFetch = .ok c := by
    simp [wC4, chatCompletionText, extractContent, jsOr, hc]
  have h := sendMessage_success_shape (stWithSetup "I feel crampy today") (wC4 c)
    ⟨true, none, 5, "menstrual"⟩ c (by decide) (by decide) rfl hchat
  exact ⟨_, h.1, by decide, by decide, by decide, h.2⟩

/-- Witness for C4 at a concrete returned content. -/
theorem c4_witness :
    ("Rest and warmth can help with cramps ~~ok~~." : String) ≠ "" ∧
    ∃ p, (sendMessage (stWithSetup "I feel crampy today")
        (wC4 "Rest and warmth can help with cramps ~~ok~~.")).promptSent = some p ∧
      strContains p "cycle day 5" = true ∧
      strContains p "menstrual" = true ∧
      strContains p (stWithSetup "I feel crampy today").inputValue = true ∧
      (sendMessage (stWithSetup "I feel crampy today")
          (wC4 "Rest and warmth can help with cramps ~~ok~~.")).state.chatLog =
        (stWithSetup "I feel crampy today").chatLog ++
          [⟨jsTrim (stWithSetup "I feel crampy today").inputValue, "user"⟩,
           ⟨stripTildes "Rest and warmth can help with cramps ~~ok~~.", "assistant"⟩] :=
  ⟨by decide, c4_crampy_example "Rest and warmth can help with cramps ~~ok~~." (by decide)⟩

/-- Setting a key makes it readable back, whatever the store held. -/
theorem getItem_setItem (store : List (String × String)) (k v : String) :
    getItem (setItem store k v) k = some v := by
  unfold getItem setItem
  have hnone : (store.filter (fun p => p.1 ≠ k)).find? (fun p => p.1 = k) = none := by
    rw [List.find?_eq_none]
    intro x hx
    have hx' := List.of_mem_filter hx
    simpa using hx'
  rw [List.find?_append, hnone]
  simp

/-- C9 (amended): a completed setup with a blank cycle-length field
persists cycle length 28 to both the module state and durable storage.
(The original claim's "positive integer" guarantee fails: the field is
converted with `Number()` and stored unvalidated — see the
counterexample with field value `"0"`.) -/
theorem c9_amended_blank_default_28 (st : AppState) (lp : String) (hlp : lp ≠ "") :
    (completeSetupClick st lp "").userCycleLength = some 28 ∧
    getItem (completeSetupClick st lp "").storage "cycleLength" = some "28" := by
  constructor
  · simp [completeSetupClick, hlp]
  · have h := getItem_setItem (setItem st.storage "lastPeriodDate" lp) "cycleLength"
      (jsNumToString (some 28))
    have h28 : jsNumToString (some 28) = "28" := by decide
    rw [h28] at h
    simpa [completeSetupClick, hlp] using h

/-- Witness for the amended C9 at a concrete date. -/
theorem c9_witness :
    ("2025-01-01" : String) ≠ "" ∧
    (completeSetupClick initState "2025-01-01" "").userCycleLength = some 28 ∧
    getItem (completeSetupClick initState "2025-01-01" "").storage "cycleLength" =
      some "28" :=
  ⟨by decide, c9_amended_blank_default_28 initState "2025-01-01" (by decide)⟩

/-- Counterexample to C9 as stated: with cycle-length field `"0"` the
setup completes and persists cycle length `0`, which is not positive. -/
theorem c9_counterexample :
    (completeSetupClick initState "2025-01-01" "0").userCycleLength = some 0 ∧
    getItem (completeSetupClick initState "2025-01-01" "0").storage "cycleLength" =
      some "0" ∧
    ∀ n : Int, (completeSetupClick initState "2025-01-01" "0").userCycleLength = some n →
      ¬ 0 < n := by
  refine ⟨by decide, by decide, ?_⟩
  intro n h
  rw [show (completeSetupClick initState "2025-01-01" "0").userCycleLength = some 0
    from by decide] at h
  injection h with h'
  rw [← h']
  decide

/-- C5: any sequence of completed sends with non-empty trimmed inputs
extends the chat log by exactly `2 * N` entries — one user message then
one assistant message per send, in order — and the previous log survives
unchanged as a prefix. -/
theorem c5_chat_log_two_per_send (st : AppState) (sends : List (String × World))
    (h : ∀ p ∈ sends, jsTrim p.1 ≠ "") :
    ∃ appended : List ChatMessage,
      (runSends st sends).chatLog = st.chatLog ++ appended ∧
      appended.length = 2 * sends.length ∧
      userAssistantPairs appended = true := by
  induction sends generalizing st with
  | nil => exact ⟨[], by simp [runSends], rfl, rfl⟩
  | cons p rest ih =>
    obtain ⟨input, w⟩ := p
    have hmsg : jsTrim input ≠ "" := h (input, w) (List.mem_cons_self _ _)
    obtain ⟨a, ha, hshape⟩ :=
      sendMessage_chatLog_shape { st with inputValue := input } w hmsg
    obtain ⟨appended, h1, h2, h3⟩ :=
      ih ((sendMessage { st with inputValue := input } w).state)
        (fun q hq => h q (List.mem_cons_of_mem _ hq))
    refine ⟨⟨jsTrim input, "user"⟩ :: a :: appended, ?_, ?_, ?_⟩
    · show (runSends (sendMessage { st with inputValue := input } w).state rest).chatLog = _
      rw [h1, hshape]
      simp
    · simp only [List.length_cons, List.length_cons, h2]
      omega
    · simp [userAssistantPairs, ha, h3]

/-- Witness for C5: two concrete sends (one needs-setup, one failing)
append four messages in user/assistant order. -/
theorem c5_witness :
    (∀ p ∈ [("hi", (⟨.error "net down", .error "net down"⟩ : World)),
            ("there", (⟨.ok ⟨false, .error "no body"⟩, .error "unused"⟩ : World))],
      jsTrim p.1 ≠ "") ∧
    ∃ appended : List ChatMessage,
      (runSends initState
          [("hi", ⟨.error "net down", .error "net down"⟩),
           ("there", ⟨.ok ⟨false, .error "no body"⟩, .error "unused"⟩)]).chatLog =
        initState.chatLog ++ appended ∧
      appended.length =
        2 * [("hi", (⟨.error "net down", .error "net down"⟩ : World)),
             ("there", (⟨.ok ⟨false, .error "no body"⟩, .error "unused"⟩ : World))].length ∧
      userAssistantPairs appended = true :=
  ⟨by decide, c5_chat_log_two_per_send initState _ (by decide)⟩

example : stripTildes "a~~b~~~c" = "ab~c" := by decide
example : strContains "abcdef" "cde" = true := by decide
example : jsNumber "28" = some 28 := by decide
example : jsNumber "0" = some 0 := by decide
example : jsNumber "-5" = some (-5) := by decide
example : jsNumber "abc" = none := by decide
example : jsTrim "  I feel crampy today " = "I feel crampy today" := by decide
